import Mathlib

/-!
A verification development for the docfub virtual filesystem (`fs.py`).

The Python classes `Node`, `DocumentUpload` and `DochubFileSystem` are
shallowly embedded as Lean definitions.  Python exceptions are modelled by
an explicit error channel (`PyExc` for raw exceptions, `FuseErr` for what
escapes a filesystem operation: either a `FuseOSError` produced by
`wrap_errno`, or an unhandled raw exception).  Calls to the remote Dochub
API are modelled by an `Api` environment (the responses) together with an
explicit trace of `ApiCall`s performed by each operation.
-/

set_option linter.unusedVariables false

/-- Raw Python exceptions that the embedded code can raise. -/
inductive PyExc where
  | keyError
  | valueError
  | attributeError
  | genericExc
deriving DecidableEq, Repr

/-- The errno values used by `wrap_errno`. -/
inductive Errno where
  | ENOENT
  | EINVAL
deriving DecidableEq, Repr

/-- What escapes a filesystem operation: a `FuseOSError(errno)`, or a raw
Python exception that no wrapper caught. -/
inductive FuseErr where
  | fuseOSError (e : Errno)
  | unhandled (e : PyExc)
deriving DecidableEq, Repr

/-- `wrap_errno` from `fs.py`: turns `KeyError` into `ENOENT` and
`ValueError` into `EINVAL`; other exceptions propagate unhandled. -/
def wrap_errno (r : Except PyExc α) : Except FuseErr α :=
  match r with
  | .ok a => .ok a
  | .error .keyError => .error (.fuseOSError .ENOENT)
  | .error .valueError => .error (.fuseOSError .EINVAL)
  | .error e => .error (.unhandled e)

/-- A serialized Dochub API payload, restricted to the keys `fs.py` reads:
`name`, `slug`, `file_type`, `votes`, `file_size`, `id`, `children`,
`courses`, `document_set`.  `none` models an absent key. -/
inductive Payload where
  | mk (name slug file_type : Option String)
      (votes file_size docId : Option Nat)
      (children courses document_set : Option (List Payload))

def Payload.getName : Payload → Option String
  | .mk n _ _ _ _ _ _ _ _ => n

def Payload.getSlug : Payload → Option String
  | .mk _ s _ _ _ _ _ _ _ => s

def Payload.getFileType : Payload → Option String
  | .mk _ _ ft _ _ _ _ _ _ => ft

def Payload.getVotes : Payload → Option Nat
  | .mk _ _ _ v _ _ _ _ _ => v

def Payload.getFileSize : Payload → Option Nat
  | .mk _ _ _ _ fsz _ _ _ _ => fsz

def Payload.getDocId : Payload → Option Nat
  | .mk _ _ _ _ _ i _ _ _ => i

def Payload.getChildren : Payload → Option (List Payload)
  | .mk _ _ _ _ _ _ c _ _ => c

def Payload.getCourses : Payload → Option (List Payload)
  | .mk _ _ _ _ _ _ _ c _ => c

def Payload.getDocumentSet : Payload → Option (List Payload)
  | .mk _ _ _ _ _ _ _ _ d => d

/-- `Node.is_category`: `'courses' in serialized and 'children' in serialized`. -/
def Payload.is_category (p : Payload) : Bool :=
  p.getCourses.isSome && p.getChildren.isSome

/-- `Node.is_course`: `'slug' in serialized`. -/
def Payload.is_course (p : Payload) : Bool :=
  p.getSlug.isSome

/-- `Node.is_document`: `'votes' in serialized`. -/
def Payload.is_document (p : Payload) : Bool :=
  p.getVotes.isSome

/-- `Node.is_dir`: `is_category or is_course`. -/
def Payload.is_dir (p : Payload) : Bool :=
  p.is_category || p.is_course

/-- The remote Dochub API environment: the payload returned by
`get_course(slug)` and the bytes returned by `get_document(id)`. -/
structure Api where
  course : String → Payload
  document : Nat → List Nat

/-- A call performed against the remote API. -/
inductive ApiCall where
  | getCourse (slug : String)
  | getDocument (docId : Nat)
  | addDocument (courseSlug docName fileName : String) (fileBytes : List Nat)
deriving Repr

/-- Whether an API call is the upload operation `add_document`. -/
def ApiCall.isUpload : ApiCall → Bool
  | .addDocument .. => true
  | _ => false

/-- `Node.name`: course payloads render as `"{slug} {name}"`, document
payloads as `"{name}{file_type}"`, anything else as the raw `name` field;
a missing key raises `KeyError`. -/
def Node.name (p : Payload) : Except PyExc String :=
  if p.is_course then
    match p.getSlug, p.getName with
    | some s, some n => .ok (s ++ " " ++ n)
    | _, _ => .error .keyError
  else if p.is_document then
    match p.getName, p.getFileType with
    | some n, some ft => .ok (n ++ ft)
    | _, _ => .error .keyError
  else
    match p.getName with
    | some n => .ok n
    | none => .error .keyError

/-- Python-dict lookup on an association list. -/
def dictLookup (d : List (String × α)) (k : String) : Option α :=
  (d.find? (fun kv => kv.1 == k)).map (·.2)

/-- Python-dict insertion `d[k] = v`: update the entry for `k` in place if
present, else append a new entry. -/
def dictInsert : List (String × α) → String → α → List (String × α)
  | [], k, v => [(k, v)]
  | kv :: rest, k, v =>
    if kv.1 == k then (k, v) :: rest else kv :: dictInsert rest k v

/-- Python-dict removal `d.pop(k)`. -/
def dictRemove (d : List (String × α)) (k : String) : List (String × α) :=
  d.filter (fun kv => kv.1 != k)

/-- The dict comprehension `{child.name: child for child in children}`,
inserting left to right into accumulator `d`; a failing `name` propagates. -/
def buildChildDict : List Payload → List (String × Payload) →
    Except PyExc (List (String × Payload))
  | [], d => .ok d
  | c :: rest, d =>
    match Node.name c with
    | .error e => .error e
    | .ok n => buildChildDict rest (dictInsert d n c)

/-- `Node.children`: raises `ValueError` on a non-directory (after reading
`serialized['name']` for the message, which itself can raise `KeyError`);
a category combines its embedded `children` and `courses` lists with no
API call; a course fetches `get_course(slug)` and uses its `document_set`. -/
def Node.children (p : Payload) (api : Api) :
    Except PyExc (List (String × Payload)) × List ApiCall :=
  if p.is_dir = false then
    match p.getName with
    | none => (.error .keyError, [])
    | some _ => (.error .valueError, [])
  else if p.is_category then
    match p.getChildren, p.getCourses with
    | some cl, some co => (buildChildDict (cl ++ co) [], [])
    | _, _ => (.error .keyError, [])
  else
    match p.getSlug with
    | some slug =>
      match (api.course slug).getDocumentSet with
      | some docs => (buildChildDict docs [], [ApiCall.getCourse slug])
      | none => (.error .keyError, [ApiCall.getCourse slug])
    | none => (.error .keyError, [])

/-- `Node.content`: raises `ValueError` on a non-document (after reading
`serialized['name']` for the message); otherwise fetches
`get_document(serialized['id'])`. -/
def Node.content (p : Payload) (api : Api) :
    Except PyExc (List Nat) × List ApiCall :=
  if p.is_document = false then
    match p.getName with
    | none => (.error .keyError, [])
    | some _ => (.error .valueError, [])
  else
    match p.getDocId with
    | some i => (.ok (api.document i), [ApiCall.getDocument i])
    | none => (.error .keyError, [])

/-- `Node.find`: walk the path components through `children`; a component
absent from the child dict raises `KeyError`. -/
def Node.find (p : Payload) (path : List String) (api : Api) :
    Except PyExc Payload × List ApiCall :=
  match path with
  | [] => (.ok p, [])
  | x :: rest =>
    match Node.children p api with
    | (.error e, t) => (.error e, t)
    | (.ok d, t) =>
      match dictLookup d x with
      | none => (.error .keyError, t)
      | some c =>
        match Node.find c rest api with
        | (r, t2) => (r, t ++ t2)

/-- An in-memory byte buffer with a write cursor, modelling `io.BytesIO`:
writing past the current end zero-fills the gap, `tell` reports the cursor. -/
structure ByteBuf where
  buf : List Nat
  pos : Nat
deriving DecidableEq, Repr

def ByteBuf.seek (b : ByteBuf) (offset : Nat) : ByteBuf :=
  { b with pos := offset }

def ByteBuf.tell (b : ByteBuf) : Nat :=
  b.pos

def ByteBuf.write (b : ByteBuf) (data : List Nat) : ByteBuf :=
  let padded := b.buf ++ List.replicate (b.pos - b.buf.length) 0
  { buf := padded.take b.pos ++ data ++ padded.drop (b.pos + data.length),
    pos := b.pos + data.length }

/-- `name.split('.', 1)` restricted to the case `fs.py` uses: `none` when the
string holds no `'.'` (Python's one-element list, whose unpacking raises
`ValueError`), else the parts before and after the first `'.'`. -/
def splitDot1 (s : String) : Option (String × String) :=
  match s.data.span (fun c => c != '.') with
  | (_, []) => none
  | (before, _ :: after) => some (String.mk before, String.mk after)

/-- A `DocumentUpload` (fields of `DocumentUpload.__init__` that carry
state: the `BytesIO` buffer, the creation time, the split filename, and the
target course payload). -/
structure DocumentUpload where
  io : ByteBuf
  ctime : Nat
  name : String
  ext : String
  course : Payload

/-- `DocumentUpload.__init__`: splitting the filename on the first `'.'`;
a dotless filename makes the tuple unpacking raise `ValueError`. -/
def DocumentUpload.make (course : Payload) (fname : String) (now : Nat) :
    Except PyExc DocumentUpload :=
  match splitDot1 fname with
  | none => .error .valueError
  | some (n, e) =>
    .ok { io := { buf := [], pos := 0 }, ctime := now, name := n, ext := e,
          course := course }

/-- `DocumentUpload.size`: `self.io.tell()`. -/
def DocumentUpload.size (u : DocumentUpload) : Nat :=
  u.io.tell

/-- The `stat` dictionary returned by the `getattr` methods. -/
structure Attrs where
  st_mode : Nat
  st_ctime : Nat
  st_mtime : Nat
  st_atime : Nat
  st_nlink : Nat
  st_uid : Nat
  st_gid : Nat
  st_size : Nat
deriving DecidableEq, Repr

def S_IFREG : Nat := 0o100000

/-- `DocumentUpload.getattr` (uid/gid come from the owning filesystem). -/
def DocumentUpload.getattr (u : DocumentUpload) (uid gid : Nat) : Attrs :=
  { st_mode := 0o200 ||| S_IFREG, st_ctime := u.ctime, st_mtime := u.ctime,
    st_atime := u.ctime, st_nlink := 1, st_uid := uid, st_gid := gid,
    st_size := u.size }

/-- `DocumentUpload.do_upload`: seek the buffer to its start, then call
`add_document` with the course slug (a `KeyError` if the course payload has
no `slug`), the base name, the joined filename and the buffer bytes. -/
def DocumentUpload.do_upload (u : DocumentUpload) : Except PyExc ApiCall :=
  let io0 := u.io.seek 0
  match u.course.getSlug with
  | some slug =>
    .ok (ApiCall.addDocument slug u.name
          (String.intercalate "." [u.name, u.ext]) io0.buf)
  | none => .error .keyError

/-- `os.path.split(p)`: split at the last `'/'`; the head keeps its
trailing slashes only when it consists of nothing else. -/
def osPathSplit (p : List Char) : List Char × List Char :=
  let tl := (p.reverse.takeWhile (fun c => c != '/')).reverse
  let hd := (p.reverse.dropWhile (fun c => c != '/')).reverse
  if hd.isEmpty || hd.all (fun c => c == '/') then (hd, tl)
  else ((hd.reverse.dropWhile (fun c => c == '/')).reverse, tl)

def osPathSplitStr (s : String) : String × String :=
  (String.mk (osPathSplit s.data).1, String.mk (osPathSplit s.data).2)

theorem osPathSplit_fst_length_lt (p : List Char) (h : (osPathSplit p).2 ≠ []) :
    (osPathSplit p).1.length < p.length := by
  have h1 : p.reverse.takeWhile (fun c => c != '/') ++
      p.reverse.dropWhile (fun c => c != '/') = p.reverse :=
    List.takeWhile_append_dropWhile _ _
  have hlen : (p.reverse.takeWhile (fun c => c != '/')).length +
      (p.reverse.dropWhile (fun c => c != '/')).length = p.length := by
    have h2 := congrArg List.length h1
    rw [List.length_append, List.length_reverse] at h2
    exact h2
  have htlpos : 0 < (p.reverse.takeWhile (fun c => c != '/')).length := by
    rcases Nat.eq_zero_or_pos (p.reverse.takeWhile (fun c => c != '/')).length
      with h0 | h0
    · exfalso
      apply h
      have h0' : p.reverse.takeWhile (fun c => c != '/') = [] :=
        List.length_eq_zero.mp h0
      simp only [osPathSplit]
      split <;> simp [h0']
    · exact h0
  have hstrip : ((p.reverse.dropWhile (fun c => c != '/')).dropWhile
        (fun c => c == '/')).length ≤
      (p.reverse.dropWhile (fun c => c != '/')).length :=
    (List.dropWhile_sublist _).length_le
  simp only [osPathSplit]
  split
  · simp only [List.length_reverse]
    omega
  · simp only [List.reverse_reverse, List.length_reverse]
    omega

/-- `to_breadcrumbs` from `fs.py`: peel path components off the end with
`os.path.split` until the component is empty, collecting them in order.
The loop is written with a fuel argument so that it stays structurally
recursive and kernel-computable; `osPathSplit_fst_length_lt` shows a fuel
of `p.length + 1` is never exhausted (see `breadcrumbsAux_fuel_congr`). -/
def breadcrumbsAux (fuel : Nat) (p : List Char) : List (List Char) :=
  match fuel with
  | 0 => []
  | fuel + 1 =>
    if (osPathSplit p).2 = [] then []
    else breadcrumbsAux fuel (osPathSplit p).1 ++ [(osPathSplit p).2]

/-- The fuel in `breadcrumbsAux` is irrelevant as long as it exceeds the
length of the path, so the definition agrees with the unbounded Python
loop. -/
theorem breadcrumbsAux_fuel_congr (fuel1 fuel2 : Nat) (p : List Char)
    (h1 : p.length < fuel1) (h2 : p.length < fuel2) :
    breadcrumbsAux fuel1 p = breadcrumbsAux fuel2 p := by
  induction fuel1 generalizing fuel2 p with
  | zero => omega
  | succ f1 ih =>
    cases fuel2 with
    | zero => omega
    | succ f2 =>
      simp only [breadcrumbsAux]
      by_cases hsplit : (osPathSplit p).2 = []
      · simp [hsplit]
      · have hlt := osPathSplit_fst_length_lt p hsplit
        simp only [hsplit, if_false]
        rw [ih f2 (osPathSplit p).1 (by omega) (by omega)]

def to_breadcrumbs (s : String) : List String :=
  (breadcrumbsAux (s.data.length + 1) s.data).map String.mk

/-- What a path resolves to: an entity `Node` of the tree, or a
`DocumentUpload` from the pending-uploads mapping. -/
inductive FsNode where
  | node (p : Payload)
  | upload (u : DocumentUpload)

/-- The `DochubFileSystem` state: the root tree payload, the pending
uploads keyed by path, and the mount-scoped metadata. -/
structure FS where
  tree : Payload
  uploads : List (String × DocumentUpload)
  uid : Nat
  gid : Nat
  mount_time : Nat

/-- `DochubFileSystem.find_path` (decorated with `wrap_errno`): the pending
upload at the exact path if one exists, else the tree node reached by
walking `to_breadcrumbs(path)`. -/
def FS.find_path (fs : FS) (path : String) (api : Api) :
    Except FuseErr FsNode × List ApiCall :=
  match dictLookup fs.uploads path with
  | some u => (.ok (.upload u), [])
  | none =>
    match Node.find fs.tree (to_breadcrumbs path) api with
    | (r, t) => (wrap_errno (r.map FsNode.node), t)

/-- `DochubFileSystem.readdir`.  `find_path` is wrapped by `wrap_errno`,
but the `node.children` access in `readdir` itself is not: its exceptions
escape unhandled (an `AttributeError` when the node is a `DocumentUpload`,
which has no `children`). -/
def FS.readdir (fs : FS) (path : String) (api : Api) :
    Except FuseErr (List String) × List ApiCall :=
  match fs.find_path path api with
  | (.error e, t) => (.error e, t)
  | (.ok (.upload _), t) => (.error (.unhandled .attributeError), t)
  | (.ok (.node p), t) =>
    match Node.children p api with
    | (.error e, t2) => (.error (.unhandled e), t ++ t2)
    | (.ok d, t2) => (.ok ("." :: ".." :: d.map (·.1)), t ++ t2)

/-- Python slicing `l[a:b]` for natural bounds. -/
def pySlice (l : List Nat) (a b : Nat) : List Nat :=
  (l.drop a).take (b - a)

/-- `DochubFileSystem.read`: `node.content[offset:offset+size]`.  As in
`readdir`, the `content` access is not wrapped by `wrap_errno`. -/
def FS.read (fs : FS) (path : String) (size offset : Nat) (api : Api) :
    Except FuseErr (List Nat) × List ApiCall :=
  match fs.find_path path api with
  | (.error e, t) => (.error e, t)
  | (.ok (.upload _), t) => (.error (.unhandled .attributeError), t)
  | (.ok (.node p), t) =>
    match Node.content p api with
    | (.error e, t2) => (.error (.unhandled e), t ++ t2)
    | (.ok c, t2) => (.ok (pySlice c offset (offset + size)), t ++ t2)

/-- `DochubFileSystem.create`: split the path, resolve the parent, raise a
bare `Exception` (unhandled) when the parent is not a course; when `mode`
has the regular-file bit, construct a `DocumentUpload` (which raises
`ValueError` on a dotless filename) and register it under the full path;
always return the handle `3`.  `now` stands for `time()`. -/
def FS.create (fs : FS) (path : String) (mode : Nat) (now : Nat) (api : Api) :
    Except FuseErr (Nat × FS) × List ApiCall :=
  match osPathSplitStr path with
  | (directory, fname) =>
    match fs.find_path directory api with
    | (.error e, t) => (.error e, t)
    | (.ok (.upload _), t) => (.error (.unhandled .attributeError), t)
    | (.ok (.node parent), t) =>
      if parent.is_course = false then (.error (.unhandled .genericExc), t)
      else if mode &&& S_IFREG ≠ 0 then
        match DocumentUpload.make parent fname now with
        | .error e => (.error (.unhandled e), t)
        | .ok u => (.ok (3, { fs with uploads := dictInsert fs.uploads path u }), t)
      else (.ok (3, fs), t)

/-- `DochubFileSystem.release`: when a pending upload with positive size is
registered at the path, pop it and run `do_upload`; otherwise do nothing.
The result carries the exception channel, the new state and the API calls
performed. -/
def FS.release (fs : FS) (path : String) :
    Except PyExc Unit × FS × List ApiCall :=
  match dictLookup fs.uploads path with
  | some u =>
    if u.size > 0 then
      match u.do_upload with
      | .ok call =>
        (.ok (), { fs with uploads := dictRemove fs.uploads path }, [call])
      | .error e =>
        (.error e, { fs with uploads := dictRemove fs.uploads path }, [])
    else (.ok (), fs, [])
  | none => (.ok (), fs, [])

/-- `DochubFileSystem.write`: on a registered path, seek to `offset` when
it differs from the current cursor, write the data and return its length;
on an unregistered path return `-1` (no exception is raised). -/
def FS.write (fs : FS) (path : String) (data : List Nat) (offset : Nat) :
    Int × FS :=
  match dictLookup fs.uploads path with
  | some u =>
    let io1 := if offset ≠ u.size then u.io.seek offset else u.io
    let u' := { u with io := io1.write data }
    (Int.ofNat data.length, { fs with uploads := dictInsert fs.uploads path u' })
  | none => (-1, fs)

/-! ### Helper lemmas about the Python-dict model -/

theorem dictLookup_cons (kv : String × α) (d : List (String × α)) (k : String) :
    dictLookup (kv :: d) k = if kv.1 = k then some kv.2 else dictLookup d k := by
  by_cases h : kv.1 = k
  · simp [dictLookup, List.find?_cons_of_pos, h]
  · simp [dictLookup, List.find?_cons_of_neg, h]

theorem dictLookup_dictInsert_self (d : List (String × α)) (k : String) (v : α) :
    dictLookup (dictInsert d k v) k = some v := by
  induction d with
  | nil => simp [dictInsert, dictLookup_cons]
  | cons kv rest ih =>
    by_cases h : kv.1 = k
    · simp [dictInsert, h, dictLookup_cons]
    · simp [dictInsert, h, dictLookup_cons, ih]

theorem dictLookup_dictInsert_ne (d : List (String × α)) (k k' : String) (v : α)
    (h : k' ≠ k) : dictLookup (dictInsert d k v) k' = dictLookup d k' := by
  induction d with
  | nil =>
    rw [show dictInsert ([] : List (String × α)) k v = [(k, v)] from rfl,
      dictLookup_cons]
    simp [Ne.symm h]
  | cons kv rest ih =>
    by_cases hkv : kv.1 = k
    · rw [show dictInsert (kv :: rest) k v = (k, v) :: rest by simp [dictInsert, hkv]]
      rw [dictLookup_cons, dictLookup_cons]
      simp [Ne.symm h, hkv]
    · rw [show dictInsert (kv :: rest) k v = kv :: dictInsert rest k v by
        simp [dictInsert, hkv]]
      rw [dictLookup_cons, dictLookup_cons, ih]

theorem dictInsert_dictInsert (d : List (String × α)) (k : String) (v w : α) :
    dictInsert (dictInsert d k v) k w = dictInsert d k w := by
  induction d with
  | nil => simp [dictInsert]
  | cons kv rest ih =>
    by_cases h : kv.1 = k
    · simp [dictInsert, h]
    · simp [dictInsert, h, ih]

theorem dictRemove_dictInsert (d : List (String × α)) (k : String) (v : α) :
    dictRemove (dictInsert d k v) k = dictRemove d k := by
  induction d with
  | nil => simp [dictInsert, dictRemove]
  | cons kv rest ih =>
    simp only [dictRemove] at ih ⊢
    by_cases h : kv.1 = k
    · simp [dictInsert, h]
    · simp [dictInsert, h, ih]

theorem dictLookup_dictRemove (d : List (String × α)) (k : String) :
    dictLookup (dictRemove d k) k = none := by
  induction d with
  | nil => simp [dictRemove, dictLookup, List.find?]
  | cons kv rest ih =>
    simp only [dictRemove] at ih ⊢
    by_cases h : kv.1 = k
    · simpa [h] using ih
    · simpa [dictLookup_cons, h, List.filter_cons, bne_iff_ne, Ne.symm h] using ih

/-! ### Trace lemmas: only `do_upload` produces an `add_document` call -/

theorem children_trace_no_upload (p : Payload) (api : Api) :
    ((Node.children p api).2).filter ApiCall.isUpload = [] := by
  unfold Node.children
  split
  · split <;> rfl
  · split
    · split <;> rfl
    · split
      · split <;> simp [ApiCall.isUpload]
      · rfl

theorem find_trace_no_upload (p : Payload) (path : List String) (api : Api) :
    ((Node.find p path api).2).filter ApiCall.isUpload = [] := by
  induction path generalizing p with
  | nil => rfl
  | cons x rest ih =>
    have hch := children_trace_no_upload p api
    simp only [Node.find]
    rcases hc : Node.children p api with ⟨r, t⟩
    rw [hc] at hch
    simp only at hch
    cases r with
    | error e => simpa using hch
    | ok d =>
      dsimp only
      cases hl : dictLookup d x with
      | none => simpa using hch
      | some c =>
        dsimp only
        simp only [List.filter_append, hch, List.nil_append]
        exact ih c

theorem find_path_trace_no_upload (fs : FS) (path : String) (api : Api) :
    ((fs.find_path path api).2).filter ApiCall.isUpload = [] := by
  unfold FS.find_path
  cases dictLookup fs.uploads path with
  | some u => rfl
  | none =>
    have h := find_trace_no_upload fs.tree (to_breadcrumbs path) api
    rcases hf : Node.find fs.tree (to_breadcrumbs path) api with ⟨r, t⟩
    rw [hf] at h
    simpa using h

/-! ### The order in which the child dict resolves name collisions -/

/-- Whether a payload's rendered name is `nm`. -/
def nameIs (c : Payload) (nm : String) : Bool :=
  match Node.name c with
  | .ok s => s == nm
  | .error _ => false

/-- The last payload in `l` whose rendered name is `nm`. -/
def findLastByName (l : List Payload) (nm : String) : Option Payload :=
  l.reverse.find? (fun c => nameIs c nm)

theorem buildChildDict_lookup (l : List Payload) (d0 d : List (String × Payload))
    (h : buildChildDict l d0 = .ok d) (nm : String) :
    dictLookup d nm =
      match findLastByName l nm with
      | some c => some c
      | none => dictLookup d0 nm := by
  induction l generalizing d0 with
  | nil =>
    simp only [buildChildDict, Except.ok.injEq] at h
    subst h
    simp [findLastByName]
  | cons c rest ih =>
    simp only [buildChildDict] at h
    cases hn : Node.name c with
    | error e => rw [hn] at h; exact absurd h (by simp)
    | ok n =>
      rw [hn] at h
      rw [ih (dictInsert d0 n c) h]
      simp only [findLastByName, List.reverse_cons, List.find?_append]
      cases hfr : rest.reverse.find? (fun c => nameIs c nm) with
      | some x => simp [Option.or]
      | none =>
        simp only [Option.or]
        have hci : nameIs c nm = (n == nm) := by
          simp [nameIs, hn]
        by_cases hnm : n = nm
        · subst hnm
          simp [List.find?, hci, dictLookup_dictInsert_self]
        · have : nameIs c nm = false := by
            simp [hci, hnm]
          simp [List.find?, this, dictLookup_dictInsert_ne _ _ _ _ (Ne.symm hnm)]

/-! ### Filename splitting and buffer lemmas -/

theorem splitDot1_eq_none (s : String) (h : s.data.all (fun c => c != '.')) :
    splitDot1 s = none := by
  unfold splitDot1
  have hdrop : s.data.dropWhile (fun c => c != '.') = [] :=
    List.dropWhile_eq_nil_iff.mpr (fun x hx => List.all_eq_true.mp h x hx)
  rw [List.span_eq_take_drop, hdrop]

theorem ByteBuf.write_pos (b : ByteBuf) (data : List Nat) :
    (b.write data).pos = b.pos + data.length := rfl

theorem ByteBuf.write_buf_length (b : ByteBuf) (data : List Nat) :
    (b.write data).buf.length = max b.buf.length (b.pos + data.length) := by
  simp only [ByteBuf.write, List.length_append, List.length_take,
    List.length_drop, List.length_replicate]
  omega

/-! ### Sample data used by the concrete witnesses and counterexamples -/

/-- A course payload: `{slug: "a", name: "b"}`, rendered name `"a b"`. -/
def courseP : Payload :=
  .mk (some "b") (some "a") none none none none none none none

/-- A document payload: `{name: "d", file_type: ".txt", votes: 1,
file_size: 3, id: 7}`, rendered name `"d.txt"`. -/
def docP : Payload :=
  .mk (some "d") none (some ".txt") (some 1) (some 3) (some 7) none none none

/-- A root category payload with the document in `children` and the course
in `courses`. -/
def rootP : Payload :=
  .mk (some "r") none none none none none (some [docP]) (some [courseP]) none

/-- A remote API environment: every course fetch returns an empty
`document_set`, every document fetch returns 5 bytes. -/
def apiA : Api :=
  { course := fun _ => .mk none none none none none none none none (some []),
    document := fun _ => [1, 2, 3, 4, 5] }

/-- A freshly mounted filesystem over `rootP` with no pending uploads. -/
def fs0 : FS :=
  { tree := rootP, uploads := [], uid := 0, gid := 0, mount_time := 0 }

/-- A zero-size pending upload for `/a b/f.txt`. -/
def u0 : DocumentUpload :=
  { io := { buf := [], pos := 0 }, ctime := 0, name := "f", ext := "txt",
    course := courseP }

/-- `fs0` with the pending upload `u0` registered. -/
def fsPending : FS :=
  { tree := rootP, uploads := [("/a b/f.txt", u0)], uid := 0, gid := 0,
    mount_time := 0 }

/-! ### The claims -/

/-- **C3.** For every document node `D` and every size and offset,
`readBytes(D, size, offset)` returns exactly the byte window
`content(D)[offset : offset+size]`, clipped at content end; when `offset`
is at least the content length the result is empty and no error is
raised. -/
theorem read_returns_clipped_window (fs : FS) (path : String) (api : Api)
    (size offset : Nat) (p : Payload) (t : List ApiCall) (did : Nat)
    (hfind : fs.find_path path api = (.ok (.node p), t))
    (hdoc : p.is_document = true)
    (hid : p.getDocId = some did) :
    (fs.read path size offset api).1 =
      .ok (((api.document did).drop offset).take size) ∧
    (((api.document did).drop offset).take size).length =
      min size ((api.document did).length - offset) ∧
    ((api.document did).length ≤ offset →
      (fs.read path size offset api).1 = .ok []) := by
  have hread : (fs.read path size offset api).1 =
      .ok (((api.document did).drop offset).take size) := by
    unfold FS.read
    rw [hfind]
    dsimp only
    unfold Node.content
    rw [hdoc, hid]
    simp [pySlice, Nat.add_sub_cancel_left]
  refine ⟨hread, ?_, ?_⟩
  · simp [Nat.min_comm]
  · intro hle
    rw [hread, List.drop_eq_nil_of_le hle, List.take_nil]

/-- **C4.** For every category node `C`, `children(C)` equals the
name-to-node mapping built from `C`'s embedded `children` list followed by
its `courses` list (on a name collision the last entry of that combined
order wins), and no call to the Remote Client is performed. -/
theorem category_children_local_last_wins (p : Payload) (api : Api)
    (cl co : List Payload) (d : List (String × Payload))
    (hch : p.getChildren = some cl) (hco : p.getCourses = some co)
    (hok : buildChildDict (cl ++ co) [] = .ok d) :
    Node.children p api = (.ok d, []) ∧
    ∀ nm, dictLookup d nm = findLastByName (cl ++ co) nm := by
  have hcat : p.is_category = true := by
    simp [Payload.is_category, hch, hco]
  have hdir : p.is_dir = true := by
    simp [Payload.is_dir, hcat]
  constructor
  · unfold Node.children
    rw [hdir, hcat]
    simp only [Bool.true_eq_false, if_false, if_true]
    rw [hch, hco]
    dsimp only
    rw [hok]
  · intro nm
    rw [buildChildDict_lookup (cl ++ co) [] d hok nm]
    cases findLastByName (cl ++ co) nm with
    | some c => rfl
    | none => rfl

/-- **C3 witness**: reading `/d.txt` (5 content bytes) with size 4 at
offset 3 returns the 2-byte clipped window. -/
theorem read_returns_clipped_window_witness :
    fs0.find_path "/d.txt" apiA = (.ok (.node docP), []) ∧
    docP.is_document = true ∧
    docP.getDocId = some 7 ∧
    ((fs0.read "/d.txt" 4 3 apiA).1 =
        .ok (((apiA.document 7).drop 3).take 4) ∧
      (((apiA.document 7).drop 3).take 4).length =
        min 4 ((apiA.document 7).length - 3) ∧
      ((apiA.document 7).length ≤ 3 →
        (fs0.read "/d.txt" 4 3 apiA).1 = .ok [])) :=
  ⟨rfl, rfl, rfl,
    read_returns_clipped_window fs0 "/d.txt" apiA 4 3 docP [] 7 rfl rfl rfl⟩

/-- **C4 witness**: the root category's children are built from the
embedded lists without any API call. -/
theorem category_children_local_last_wins_witness :
    rootP.getChildren = some [docP] ∧
    rootP.getCourses = some [courseP] ∧
    buildChildDict ([docP] ++ [courseP]) []
      = .ok [("d.txt", docP), ("a b", courseP)] ∧
    Node.children rootP apiA = (.ok [("d.txt", docP), ("a b", courseP)], []) ∧
    dictLookup [("d.txt", docP), ("a b", courseP)] "a b"
      = findLastByName ([docP] ++ [courseP]) "a b" :=
  ⟨rfl, rfl, rfl,
    (category_children_local_last_wins rootP apiA [docP] [courseP] _ rfl rfl
      rfl).1,
    (category_children_local_last_wins rootP apiA [docP] [courseP] _ rfl rfl
      rfl).2 "a b"⟩

/-- **C10.** A `createFile` whose filename component contains no `'.'`
raises an unhandled `ValueError` (from unpacking the one-element result of
`name.split('.', 1)`) even when the parent is a valid course and the mode
has the regular-file bit; hence no pending upload is registered for a
dotless filename. -/
theorem create_dotless_name_valueerror (fs : FS) (api : Api)
    (path dir fname : String) (p : Payload) (t : List ApiCall) (mode now : Nat)
    (hsplit : osPathSplitStr path = (dir, fname))
    (hfind : fs.find_path dir api = (.ok (.node p), t))
    (hcourse : p.is_course = true)
    (hmode : mode &&& S_IFREG ≠ 0)
    (hnodot : fname.data.all (fun c => c != '.')) :
    (fs.create path mode now api).1 = .error (.unhandled .valueError) := by
  have hsd := splitDot1_eq_none fname hnodot
  unfold FS.create
  rw [hsplit]
  dsimp only
  rw [hfind]
  dsimp only
  rw [hcourse]
  simp only [Bool.true_eq_false, if_false]
  rw [if_pos hmode]
  unfold DocumentUpload.make
  rw [hsd]

/-- **C10 witness**: creating `/a b/noext` under the sample course raises
the unhandled `ValueError`. -/
theorem create_dotless_name_valueerror_witness :
    osPathSplitStr "/a b/noext" = ("/a b", "noext") ∧
    fs0.find_path "/a b" apiA = (.ok (.node courseP), []) ∧
    courseP.is_course = true ∧
    33188 &&& S_IFREG ≠ 0 ∧
    "noext".data.all (fun c => c != '.') = true ∧
    (fs0.create "/a b/noext" 33188 0 apiA).1 = .error (.unhandled .valueError) :=
  ⟨rfl, rfl, rfl, by decide, by decide,
    create_dotless_name_valueerror fs0 apiA "/a b/noext" "/a b" "noext"
      courseP [] 33188 0 rfl rfl rfl (by decide) (by decide)⟩

/-- A payload that is structurally both a course (`slug`) and a document
(`votes`): `{name: "n", slug: "s", file_type: ".t", votes: 1}`. -/
def ambP : Payload :=
  .mk (some "n") (some "s") (some ".t") (some 1) none none none none none

/-- A payload matching none of the three kinds: `{name: "z"}`. -/
def zeroP : Payload :=
  .mk (some "z") none none none none none none none none

/-- **C9 counterexample**: an ambiguous payload (both course and document)
is not rejected — `name` silently renders it as a course — and a payload
matching zero kinds is not rejected either; no malformed-entity error
exists in the code. -/
theorem ambiguous_payload_not_rejected_cex :
    ambP.is_course = true ∧ ambP.is_document = true ∧
    Node.name ambP = .ok "s n" ∧
    zeroP.is_category = false ∧ zeroP.is_course = false ∧
    zeroP.is_document = false ∧ Node.name zeroP = .ok "z" :=
  ⟨rfl, rfl, rfl, rfl, rfl, rfl, rfl⟩

/-- **C9 amended.** Classification is by independent structural predicates
with course-before-document precedence in `name`; a payload matching
several kinds is rendered by the first matching branch, and a payload
matching no kind falls back to its raw `name` field — neither case fails
with a malformed-entity error. -/
theorem classification_precedence_no_malformed_error (p q : Payload)
    (nm sl qn : String)
    (hpc : p.is_course = true) (hpd : p.is_document = true)
    (hpn : p.getName = some nm) (hps : p.getSlug = some sl)
    (hq1 : q.is_course = false) (hq2 : q.is_document = false)
    (hqn : q.getName = some qn) :
    Node.name p = .ok (sl ++ " " ++ nm) ∧ Node.name q = .ok qn := by
  constructor
  · unfold Node.name
    rw [hpc, if_pos rfl, hps, hpn]
  · unfold Node.name
    rw [hq1, hq2]
    simp only [Bool.false_eq_true, if_false]
    rw [hqn]

/-- **C9 amended witness**: instantiated at the ambiguous and the
kind-less sample payloads. -/
theorem classification_precedence_no_malformed_error_witness :
    ambP.is_course = true ∧ ambP.is_document = true ∧
    ambP.getName = some "n" ∧ ambP.getSlug = some "s" ∧
    zeroP.is_course = false ∧ zeroP.is_document = false ∧
    zeroP.getName = some "z" ∧
    (Node.name ambP = .ok ("s" ++ " " ++ "n") ∧ Node.name zeroP = .ok "z") :=
  ⟨rfl, rfl, rfl, rfl, rfl, rfl, rfl,
    classification_precedence_no_malformed_error ambP zeroP "n" "s" "z"
      rfl rfl rfl rfl rfl rfl rfl⟩

/-- **C6 counterexample**: a `writeBytes` on a path with no registered
Pending Upload returns `-1` with the state unchanged — a plain return
value, not a raised *invalid* error (and not `len(data)`). -/
theorem write_unregistered_minus_one_cex :
    FS.write fs0 "/a b/f.txt" [5] 0 = (-1, fs0) ∧
    (FS.write fs0 "/a b/f.txt" [5] 0).1 ≠ Int.ofNat 1 :=
  ⟨rfl, by decide⟩

/-- **C6 amended.** `writeBytes` returns `-1` (raising nothing) when no
Pending Upload is registered at the path, and returns `len(data)` on a
registered path. -/
theorem write_minus_one_or_length (fs1 fs2 : FS) (p1 p2 : String)
    (d1 d2 : List Nat) (o1 o2 : Nat) (u : DocumentUpload)
    (h1 : dictLookup fs1.uploads p1 = none)
    (h2 : dictLookup fs2.uploads p2 = some u) :
    FS.write fs1 p1 d1 o1 = (-1, fs1) ∧
    (FS.write fs2 p2 d2 o2).1 = Int.ofNat d2.length := by
  constructor
  · unfold FS.write
    rw [h1]
  · unfold FS.write
    rw [h2]

/-- **C6 amended witness**: no upload at `/zzz` in `fs0`; upload `u0`
registered at `/a b/f.txt` in `fsPending`. -/
theorem write_minus_one_or_length_witness :
    dictLookup fs0.uploads "/zzz" = none ∧
    dictLookup fsPending.uploads "/a b/f.txt" = some u0 ∧
    FS.write fs0 "/zzz" [7] 0 = (-1, fs0) ∧
    (FS.write fsPending "/a b/f.txt" [9] 0).1 = Int.ofNat [9].length :=
  ⟨rfl, rfl,
    (write_minus_one_or_length fs0 fsPending "/zzz" "/a b/f.txt" [7] [9] 0 0
      u0 rfl rfl).1,
    (write_minus_one_or_length fs0 fsPending "/zzz" "/a b/f.txt" [7] [9] 0 0
      u0 rfl rfl).2⟩

/-- **C2 counterexample**: releasing the zero-size pending upload at
`/a b/f.txt` performs no upload call but leaves the entry in the uploads
mapping — it is not removed as the claim states. -/
theorem release_zero_size_keeps_entry_cex :
    FS.release fsPending "/a b/f.txt" = (.ok (), fsPending, []) ∧
    dictLookup (FS.release fsPending "/a b/f.txt").2.1.uploads "/a b/f.txt"
      = some u0 :=
  ⟨rfl, rfl⟩

/-- **C2 amended.** Releasing a path whose Pending Upload has size zero
performs no upload call and leaves the filesystem state — including the
pending entry — completely unchanged. -/
theorem release_zero_size_noop (fs : FS) (path : String) (u : DocumentUpload)
    (hu : dictLookup fs.uploads path = some u) (hz : u.size = 0) :
    FS.release fs path = (.ok (), fs, []) := by
  unfold FS.release
  rw [hu]
  simp [hz]

/-- **C2 amended witness**: the zero-size upload `u0` at `/a b/f.txt`. -/
theorem release_zero_size_noop_witness :
    dictLookup fsPending.uploads "/a b/f.txt" = some u0 ∧
    u0.size = 0 ∧
    FS.release fsPending "/a b/f.txt" = (.ok (), fsPending, []) :=
  ⟨rfl, rfl, release_zero_size_noop fsPending "/a b/f.txt" u0 rfl rfl⟩

/-- The upload state reached from `u0` by writing `"ab"` at offset 0 and
then one byte `"x"` at offset 0 again: the buffer holds two bytes but the
cursor sits at 1. -/
def u5 : DocumentUpload :=
  { io := { buf := [120, 98], pos := 1 }, ctime := 0, name := "f",
    ext := "txt", course := courseP }

/-- **C5 counterexample**: after writing `"ab"` at offset 0 and `"x"` at
offset 0, the size reported by the upload's attributes is the cursor
position 1 while the buffer length is 2 — the claimed equality fails. -/
theorem upload_size_is_cursor_not_length_cex :
    dictLookup (((fsPending.write "/a b/f.txt" [97, 98] 0).2).write
        "/a b/f.txt" [120] 0).2.uploads "/a b/f.txt" = some u5 ∧
    (u5.getattr 0 0).st_size = 1 ∧
    u5.io.buf.length = 2 ∧
    (1 : Nat) ≠ 2 :=
  ⟨rfl, rfl, rfl, by decide⟩

/-- **C5 amended.** After `writeBytes(path, data, offset)` on a registered
Pending Upload, the size reported by its attributes equals the write
cursor `offset + len(data)`; the buffer length is
`max (previous length) (offset + len(data))`, so the two agree only when
the write does not rewind into previously written data. -/
theorem write_size_eq_cursor (fs : FS) (path : String) (data : List Nat)
    (offset uidN gidN : Nat) (u : DocumentUpload)
    (hu : dictLookup fs.uploads path = some u) :
    (dictLookup ((FS.write fs path data offset).2).uploads path).map
        (fun w => (w.getattr uidN gidN).st_size) =
      some (offset + data.length) ∧
    (dictLookup ((FS.write fs path data offset).2).uploads path).map
        (fun w => w.io.buf.length) =
      some (max u.io.buf.length (offset + data.length)) ∧
    (FS.write fs path data offset).1 = Int.ofNat data.length := by
  unfold FS.write
  rw [hu]
  dsimp only
  rw [dictLookup_dictInsert_self]
  by_cases h : offset ≠ u.size
  · rw [if_pos h]
    refine ⟨?_, ?_, rfl⟩
    · simp [DocumentUpload.getattr, DocumentUpload.size, ByteBuf.tell,
        ByteBuf.write_pos, ByteBuf.seek]
    · simp [ByteBuf.write_buf_length, ByteBuf.seek]
  · rw [if_neg h]
    have he : u.io.pos = offset := (not_ne_iff.mp h).symm
    refine ⟨?_, ?_, rfl⟩
    · simp [DocumentUpload.getattr, DocumentUpload.size, ByteBuf.tell,
        ByteBuf.write_pos, he]
    · simp [ByteBuf.write_buf_length, he]

/-- **C5 amended witness**: writing two bytes at offset 0 into the fresh
upload `u0` gives reported size 2 and buffer length 2. -/
theorem write_size_eq_cursor_witness :
    dictLookup fsPending.uploads "/a b/f.txt" = some u0 ∧
    ((dictLookup ((FS.write fsPending "/a b/f.txt" [97, 98] 0).2).uploads
          "/a b/f.txt").map (fun w => (w.getattr 0 0).st_size) =
        some (0 + [97, 98].length) ∧
      (dictLookup ((FS.write fsPending "/a b/f.txt" [97, 98] 0).2).uploads
          "/a b/f.txt").map (fun w => w.io.buf.length) =
        some (max u0.io.buf.length (0 + [97, 98].length)) ∧
      (FS.write fsPending "/a b/f.txt" [97, 98] 0).1 =
        Int.ofNat [97, 98].length) :=
  ⟨rfl, write_size_eq_cursor fsPending "/a b/f.txt" [97, 98] 0 0 0 u0 rfl⟩

/-- **C7 counterexample**: listing a path that resolves to a Pending
Upload fails with an unhandled `AttributeError` (a `DocumentUpload` has no
`children`), not with the claimed *not-a-directory / invalid operation*
error. -/
theorem readdir_upload_attribute_error_cex :
    (fsPending.readdir "/a b/f.txt" apiA).1 =
      .error (.unhandled .attributeError) ∧
    (fsPending.readdir "/a b/f.txt" apiA).1 ≠
      .error (.unhandled .valueError) ∧
    (fsPending.readdir "/a b/f.txt" apiA).1 ≠
      .error (.fuseOSError .EINVAL) := by
  have h0 : (fsPending.readdir "/a b/f.txt" apiA).1 =
      .error (.unhandled .attributeError) := rfl
  refine ⟨h0, ?_, ?_⟩ <;> rw [h0] <;> simp

/-- **C7 amended.** `list(path)` fails with the not-a-directory
`ValueError` when the path resolves to a document node, fails with an
`AttributeError` when it resolves to a Pending Upload, and on a directory
returns `'.'` and `'..'` followed by all child names. -/
theorem readdir_kind_dispatch (fs : FS) (api : Api) (pu pd pr : String)
    (u : DocumentUpload) (dp rp : Payload) (td tr t2 : List ApiCall)
    (dd : List (String × Payload))
    (hu : fs.find_path pu api = (.ok (.upload u), []))
    (hd : fs.find_path pd api = (.ok (.node dp), td))
    (hdoc : dp.is_document = true) (hndir : dp.is_dir = false)
    (hname : dp.getName.isSome = true)
    (hr : fs.find_path pr api = (.ok (.node rp), tr))
    (hrch : Node.children rp api = (.ok dd, t2)) :
    (fs.readdir pu api).1 = .error (.unhandled .attributeError) ∧
    (fs.readdir pd api).1 = .error (.unhandled .valueError) ∧
    (fs.readdir pr api).1 = .ok ("." :: ".." :: dd.map (·.1)) := by
  refine ⟨?_, ?_, ?_⟩
  · unfold FS.readdir
    rw [hu]
  · obtain ⟨n, hn⟩ := Option.isSome_iff_exists.mp hname
    unfold FS.readdir
    rw [hd]
    dsimp only
    unfold Node.children
    simp [hndir, hn]
  · unfold FS.readdir
    rw [hr]
    dsimp only
    rw [hrch]

/-- **C7 amended witness**: in `fsPending`, listing the upload path, the
document path and the root directory. -/
theorem readdir_kind_dispatch_witness :
    fsPending.find_path "/a b/f.txt" apiA = (.ok (.upload u0), []) ∧
    fsPending.find_path "/d.txt" apiA = (.ok (.node docP), []) ∧
    docP.is_document = true ∧ docP.is_dir = false ∧
    docP.getName.isSome = true ∧
    fsPending.find_path "/" apiA = (.ok (.node rootP), []) ∧
    Node.children rootP apiA = (.ok [("d.txt", docP), ("a b", courseP)], []) ∧
    ((fsPending.readdir "/a b/f.txt" apiA).1 =
        .error (.unhandled .attributeError) ∧
      (fsPending.readdir "/d.txt" apiA).1 = .error (.unhandled .valueError) ∧
      (fsPending.readdir "/" apiA).1 =
        .ok ("." :: ".." :: [("d.txt", docP), ("a b", courseP)].map (·.1))) :=
  ⟨rfl, rfl, rfl, rfl, rfl, rfl, rfl,
    readdir_kind_dispatch fsPending apiA "/a b/f.txt" "/d.txt" "/" u0 docP
      rootP [] [] [] [("d.txt", docP), ("a b", courseP)]
      rfl rfl rfl rfl rfl rfl rfl⟩

/-- **C8 counterexample**: creating `/f.txt` under the root category
raises a bare unhandled `Exception`, not a *permission/invalid* FUSE
error; and creating under a course with a mode lacking the regular-file
bit returns the handle without registering any Pending Upload. -/
theorem create_noncourse_generic_exception_cex :
    (fs0.create "/f.txt" 33188 0 apiA).1 = .error (.unhandled .genericExc) ∧
    (fs0.create "/f.txt" 33188 0 apiA).1 ≠ .error (.fuseOSError .EINVAL) ∧
    fs0.create "/a b/f.txt" 0 0 apiA = (.ok (3, fs0), []) := by
  have h0 : (fs0.create "/f.txt" 33188 0 apiA).1 =
      .error (.unhandled .genericExc) := rfl
  refine ⟨h0, ?_, rfl⟩
  rw [h0]
  simp

/-- **C8 amended.** `createFile` raises a bare unhandled exception when
the parent resolves to a non-course node; when the parent is a course,
the mode carries the regular-file bit and the filename holds a dot, it
registers a fresh Pending Upload keyed by the full path and returns the
handle token `3`. -/
theorem create_noncourse_vs_course (fs : FS) (api : Api)
    (path1 dir1 n1 : String) (q : Payload) (t1 : List ApiCall)
    (path2 dir2 fname bn ex : String) (p : Payload) (t2 : List ApiCall)
    (mode now : Nat)
    (h1s : osPathSplitStr path1 = (dir1, n1))
    (h1f : fs.find_path dir1 api = (.ok (.node q), t1))
    (h1c : q.is_course = false)
    (h2s : osPathSplitStr path2 = (dir2, fname))
    (h2f : fs.find_path dir2 api = (.ok (.node p), t2))
    (h2c : p.is_course = true)
    (h2d : splitDot1 fname = some (bn, ex))
    (h2m : mode &&& S_IFREG ≠ 0) :
    (fs.create path1 mode now api).1 = .error (.unhandled .genericExc) ∧
    fs.create path2 mode now api =
      (.ok (3, { fs with uploads := (dictInsert fs.uploads path2
          ⟨{ buf := [], pos := 0 }, now, bn, ex, p⟩) }), t2) := by
  constructor
  · unfold FS.create
    rw [h1s]
    dsimp only
    rw [h1f]
    dsimp only
    simp [h1c]
  · unfold FS.create
    rw [h2s]
    dsimp only
    rw [h2f]
    dsimp only
    rw [h2c]
    simp only [Bool.true_eq_false, if_false]
    rw [if_pos h2m]
    unfold DocumentUpload.make
    rw [h2d]

/-- **C8 amended witness**: creating under the root category versus under
the sample course. -/
theorem create_noncourse_vs_course_witness :
    osPathSplitStr "/f.txt" = ("/", "f.txt") ∧
    fs0.find_path "/" apiA = (.ok (.node rootP), []) ∧
    rootP.is_course = false ∧
    osPathSplitStr "/a b/f.txt" = ("/a b", "f.txt") ∧
    fs0.find_path "/a b" apiA = (.ok (.node courseP), []) ∧
    courseP.is_course = true ∧
    splitDot1 "f.txt" = some ("f", "txt") ∧
    33188 &&& S_IFREG ≠ 0 ∧
    ((fs0.create "/f.txt" 33188 5 apiA).1 =
        .error (.unhandled .genericExc) ∧
      fs0.create "/a b/f.txt" 33188 5 apiA =
        (.ok (3, { fs0 with uploads := (dictInsert fs0.uploads "/a b/f.txt"
            ⟨{ buf := [], pos := 0 }, 5, "f", "txt", courseP⟩) }), [])) :=
  ⟨rfl, rfl, rfl, rfl, rfl, rfl, rfl, by decide,
    create_noncourse_vs_course fs0 apiA "/f.txt" "/" "f.txt" rootP []
      "/a b/f.txt" "/a b" "f.txt" "f" "txt" courseP [] 33188 5
      rfl rfl rfl rfl rfl rfl rfl (by decide)⟩

/-- **C1.** For a file freshly created under a course directory, writing
`"ab"` at offset 0 and then `"cd"` at offset 2 and releasing produces
exactly one upload call, whose buffer (read from the start after the
seek in `do_upload`) is `"abcd"` (`[97, 98, 99, 100]`); the resolution
trace of `create` contains no upload call, `write` performs no API call at
all by construction, and the pending entry is gone afterwards. -/
theorem upload_once_on_release (fs : FS) (api : Api)
    (path dir fname bn ex sl : String) (p : Payload) (t0 : List ApiCall)
    (mode now : Nat)
    (hsplit : osPathSplitStr path = (dir, fname))
    (hfind : fs.find_path dir api = (.ok (.node p), t0))
    (hcourse : p.is_course = true)
    (hslug : p.getSlug = some sl)
    (hdot : splitDot1 fname = some (bn, ex))
    (hmode : mode &&& S_IFREG ≠ 0) :
    fs.create path mode now api =
      (.ok (3, { fs with uploads := (dictInsert fs.uploads path
          ⟨{ buf := [], pos := 0 }, now, bn, ex, p⟩) }), t0) ∧
    t0.filter ApiCall.isUpload = [] ∧
    FS.write { fs with uploads := (dictInsert fs.uploads path
        ⟨{ buf := [], pos := 0 }, now, bn, ex, p⟩) } path [97, 98] 0 =
      (2, { fs with uploads := (dictInsert fs.uploads path
          ⟨{ buf := [97, 98], pos := 2 }, now, bn, ex, p⟩) }) ∧
    FS.write { fs with uploads := (dictInsert fs.uploads path
        ⟨{ buf := [97, 98], pos := 2 }, now, bn, ex, p⟩) } path [99, 100] 2 =
      (2, { fs with uploads := (dictInsert fs.uploads path
          ⟨{ buf := [97, 98, 99, 100], pos := 4 }, now, bn, ex, p⟩) }) ∧
    FS.release { fs with uploads := (dictInsert fs.uploads path
        ⟨{ buf := [97, 98, 99, 100], pos := 4 }, now, bn, ex, p⟩) } path =
      (.ok (), { fs with uploads := dictRemove fs.uploads path },
        [ApiCall.addDocument sl bn (String.intercalate "." [bn, ex])
          [97, 98, 99, 100]]) ∧
    dictLookup (dictRemove fs.uploads path) path = none := by
  refine ⟨?_, ?_, ?_, ?_, ?_, ?_⟩
  · unfold FS.create
    rw [hsplit]
    dsimp only
    rw [hfind]
    dsimp only
    rw [hcourse]
    simp only [Bool.true_eq_false, if_false]
    rw [if_pos hmode]
    unfold DocumentUpload.make
    rw [hdot]
  · have h := find_path_trace_no_upload fs dir api
    rw [hfind] at h
    simpa using h
  · unfold FS.write
    dsimp only
    rw [dictLookup_dictInsert_self]
    dsimp only
    rw [if_neg (by simp [DocumentUpload.size, ByteBuf.tell])]
    rw [dictInsert_dictInsert]
    rfl
  · unfold FS.write
    dsimp only
    rw [dictLookup_dictInsert_self]
    dsimp only
    rw [if_neg (by simp [DocumentUpload.size, ByteBuf.tell])]
    rw [dictInsert_dictInsert]
    rfl
  · unfold FS.release
    dsimp only
    rw [dictLookup_dictInsert_self]
    dsimp only
    rw [if_pos (by simp [DocumentUpload.size, ByteBuf.tell])]
    unfold DocumentUpload.do_upload
    dsimp only
    rw [hslug]
    dsimp only
    rw [dictRemove_dictInsert]
    rfl
  · exact dictLookup_dictRemove fs.uploads path

/-- **C1 witness**: the full create/write/write/release scenario on the
sample course `/a b`. -/
theorem upload_once_on_release_witness :
    osPathSplitStr "/a b/f.txt" = ("/a b", "f.txt") ∧
    fs0.find_path "/a b" apiA = (.ok (.node courseP), []) ∧
    courseP.is_course = true ∧
    courseP.getSlug = some "a" ∧
    splitDot1 "f.txt" = some ("f", "txt") ∧
    33188 &&& S_IFREG ≠ 0 ∧
    (fs0.create "/a b/f.txt" 33188 9 apiA =
        (.ok (3, { fs0 with uploads := (dictInsert fs0.uploads "/a b/f.txt"
            ⟨{ buf := [], pos := 0 }, 9, "f", "txt", courseP⟩) }), []) ∧
      ([] : List ApiCall).filter ApiCall.isUpload = [] ∧
      FS.write { fs0 with uploads := (dictInsert fs0.uploads "/a b/f.txt"
          ⟨{ buf := [], pos := 0 }, 9, "f", "txt", courseP⟩) }
          "/a b/f.txt" [97, 98] 0 =
        (2, { fs0 with uploads := (dictInsert fs0.uploads "/a b/f.txt"
            ⟨{ buf := [97, 98], pos := 2 }, 9, "f", "txt", courseP⟩) }) ∧
      FS.write { fs0 with uploads := (dictInsert fs0.uploads "/a b/f.txt"
          ⟨{ buf := [97, 98], pos := 2 }, 9, "f", "txt", courseP⟩) }
          "/a b/f.txt" [99, 100] 2 =
        (2, { fs0 with uploads := (dictInsert fs0.uploads "/a b/f.txt"
            ⟨{ buf := [97, 98, 99, 100], pos := 4 }, 9, "f", "txt",
              courseP⟩) }) ∧
      FS.release { fs0 with uploads := (dictInsert fs0.uploads "/a b/f.txt"
          ⟨{ buf := [97, 98, 99, 100], pos := 4 }, 9, "f", "txt", courseP⟩) }
          "/a b/f.txt" =
        (.ok (), { fs0 with uploads := dictRemove fs0.uploads "/a b/f.txt" },
          [ApiCall.addDocument "a" "f" (String.intercalate "." ["f", "txt"])
            [97, 98, 99, 100]]) ∧
      dictLookup (dictRemove fs0.uploads "/a b/f.txt") "/a b/f.txt" = none) :=
  ⟨rfl, rfl, rfl, rfl, rfl, by decide,
    upload_once_on_release fs0 apiA "/a b/f.txt" "/a b" "f.txt" "f" "txt" "a"
      courseP [] 33188 9 rfl rfl rfl rfl rfl (by decide)⟩
